import Mathlib

/-!
Shallow embedding of the audio stream worker state machines from
`src/audio/aidl/default/Stream.cpp` and the stream-context creation logic from
`src/audio/aidl/default/Module.cpp` (AOSP audio HAL reference implementation).

Machine integers are modelled as `Int`/`Nat` (the C++ code never relies on
wrap-around in the modelled paths: byte counts are validated non-negative
before being used, and buffer sizes are `size_t` quantities far below 2^64).
Queue operations and driver calls are modelled by per-cycle oracle inputs
(`CycleEnv`): each boolean tells whether the corresponding fallible operation
succeeds in this cycle, and the driver transfer result carries the frame
count, latency and data the driver would produce.
-/

namespace AudioCore

/-- `StreamDescriptor::State` values. -/
inductive State where
  | standby
  | idle
  | active
  | paused
  | draining
  | drainPaused
  | transferring
  | transferPaused
  | error
  deriving DecidableEq, Repr

/-- `StreamDescriptor::DrainMode` values. -/
inductive DrainMode where
  | unspecified
  | all
  | earlyNotify
  deriving DecidableEq, Repr

/-- `StreamDescriptor::Command` tagged union. -/
inductive Command where
  | halReservedExit (cookie : Int)
  | getStatus
  | start
  | burst (fmqByteCount : Int)
  | drain (mode : DrainMode)
  | standby
  | pause
  | flush
  deriving DecidableEq, Repr

/-- Binder status codes used in replies (`STATUS_OK`, `STATUS_BAD_VALUE`,
`STATUS_INVALID_OPERATION`, `STATUS_NOT_ENOUGH_DATA`). -/
inductive RetStatus where
  | ok
  | badValue
  | invalidOperation
  | notEnoughData
  deriving DecidableEq, Repr

/-- `StreamDescriptor::Position::UNKNOWN` sentinel. -/
def positionUnknown : Int := -1

/-- `StreamDescriptor::Reply` with the fields the worker logic touches. -/
structure Reply where
  status : RetStatus
  state : State
  observableFrames : Int
  observableTimeNs : Int
  fmqByteCount : Int
  latencyMs : Int
  deriving DecidableEq, Repr

/-- `StreamDescriptor::Reply reply{};` value-initialization: all fields zero,
enum fields at their first enumerator. -/
def Reply.empty : Reply :=
  { status := .ok, state := .standby, observableFrames := 0, observableTimeNs := 0,
    fmqByteCount := 0, latencyMs := 0 }

/-- Async notifications issued through `IStreamCallback`. -/
inductive Notif where
  | onDrainReady
  | onTransferReady
  deriving DecidableEq, Repr

/-- Immutable per-stream configuration consumed by the worker logic:
frame size, scratch buffer size (`mDataBufferSize`, equal to the data MQ
capacity in bytes), the private exit cookie, whether an async callback is
registered (`mAsyncCallback != nullptr`), and the two debug flags. -/
structure StreamContextModel where
  frameSize : Nat
  dataBufferSize : Nat
  internalCommandCookie : Int
  asyncCallback : Bool
  forceTransientBurst : Bool
  forceSynchronousDrain : Bool
  deriving DecidableEq, Repr

/-- Worker-owned mutable state: the FSM state `mState` and the cumulative
frame counter `mFrameCount`. -/
structure WorkerState where
  state : State
  frameCount : Nat
  deriving DecidableEq, Repr

/-- Result of a single `mDriver->transfer` call: success flag, the frame
count and latency written through the out-parameters, and the bytes the
driver deposits in the scratch buffer (capture direction). -/
structure DriverTransfer where
  ok : Bool
  frames : Nat
  latencyMs : Int
  data : List Int
  deriving DecidableEq, Repr

/-- Per-cycle oracle: connection status as read at this cycle, the
wall-clock value `elapsedRealtimeNano()` would return, the data MQ's free
space and fill level, success flags for every fallible queue/driver
operation this cycle might perform, and whether the transient-state delay
has elapsed (`stateDurationMs >= mTransientStateDelayMs`). -/
structure CycleEnv where
  isConnected : Bool
  timeNs : Int
  availableToWrite : Nat
  availableToRead : Nat
  dataWriteOk : Bool
  dataReadOk : Bool
  transfer : DriverTransfer
  standbyOk : Bool
  pauseOk : Bool
  flushOk : Bool
  drainOk : Bool
  replyWriteOk : Bool
  transientElapsed : Bool
  deriving DecidableEq, Repr

/-- `Module::kLatencyMs`. -/
def kLatencyMs : Int := 10

/-- `StreamWorkerCommonLogic::populateReply`. -/
def populateReply (frameCount : Nat) (timeNs : Int) (isConnected : Bool) (r : Reply) : Reply :=
  if isConnected then
    { r with status := .ok, observableFrames := (frameCount : Int), observableTimeNs := timeNs }
  else
    { r with status := .ok, observableFrames := positionUnknown,
             observableTimeNs := positionUnknown }

/-- `StreamWorkerCommonLogic::populateReplyWrongState`. -/
def populateReplyWrongState (r : Reply) : Reply :=
  { r with status := .invalidOperation }

/-- Outcome of `StreamInWorkerLogic::read`: the updated reply, the updated
cumulative frame count, the negated fatal flag (the C++ return value), the
bytes actually written into the data MQ, whether the driver transfer was
invoked, and the scratch buffer contents after the transfer/silence fill. -/
structure ReadResult where
  reply : Reply
  frameCount : Nat
  notFatal : Bool
  mqWritten : List Int
  driverCalled : Bool
  buffer : List Int
  deriving Repr

/-- `StreamInWorkerLogic::read` (capture direction). -/
def streamInRead (ctx : StreamContextModel) (env : CycleEnv) (frameCount : Nat)
    (clientSize : Nat) (r : Reply) : ReadResult :=
  let byteCount := min (min clientSize env.availableToWrite) ctx.dataBufferSize
  let isConnected := env.isConnected
  let fatal := isConnected && !env.transfer.ok
  let actualFrameCount :=
    if isConnected then env.transfer.frames else byteCount / ctx.frameSize
  let latency := if isConnected then env.transfer.latencyMs else kLatencyMs
  let buffer :=
    if isConnected then env.transfer.data else List.replicate byteCount 0
  let actualByteCount := actualFrameCount * ctx.frameSize
  let success := if actualByteCount > 0 then env.dataWriteOk else true
  if success then
    let newFrameCount := frameCount + actualFrameCount
    let r1 := { r with fmqByteCount := r.fmqByteCount + (actualByteCount : Int) }
    let r2 := populateReply newFrameCount env.timeNs isConnected r1
    { reply := { r2 with latencyMs := latency }, frameCount := newFrameCount,
      notFatal := !fatal,
      mqWritten := if actualByteCount > 0 then buffer.take actualByteCount else [],
      driverCalled := isConnected, buffer := buffer }
  else
    { reply := { r with status := .notEnoughData, latencyMs := latency },
      frameCount := frameCount, notFatal := !fatal, mqWritten := [],
      driverCalled := isConnected, buffer := buffer }

/-- `StreamWorker...Logic::cycle` return value (`Status`). -/
inductive WorkerStatus where
  | abort
  | exitW
  | cont
  deriving DecidableEq, Repr

/-- Outcome of one worker cycle: new worker state, the reply delivered to
the reply MQ (`none` when no reply is written or the write fails), the
cycle status, the bytes written to the data MQ, whether the driver
transfer was invoked, and async notifications issued. -/
structure CycleResult where
  ws : WorkerState
  reply : Option Reply
  status : WorkerStatus
  mqWritten : List Int
  driverCalled : Bool
  notified : List Notif
  deriving Repr

/-- Model of lines writing the reply at the end of a cycle: sets
`reply.state = mState`, then performs the blocking reply-MQ write; a failed
write forces `mState = ERROR` and aborts, and the reply is not delivered. -/
def finishCycle (env : CycleEnv) (ws : WorkerState) (r : Reply)
    (mqWritten : List Int) (driverCalled : Bool) : CycleResult :=
  let r1 := { r with state := ws.state }
  if env.replyWriteOk then
    { ws := ws, reply := some r1, status := .cont, mqWritten := mqWritten,
      driverCalled := driverCalled, notified := [] }
  else
    { ws := { ws with state := .error }, reply := none, status := .abort,
      mqWritten := mqWritten, driverCalled := driverCalled, notified := [] }

/-- `StreamInWorkerLogic::cycle` (capture direction), after a command has
been successfully read from the command MQ. -/
def streamInCycle (ctx : StreamContextModel) (ws : WorkerState) (env : CycleEnv)
    (command : Command) : CycleResult :=
  let reply0 : Reply := { Reply.empty with status := .badValue }
  match command with
  | .halReservedExit cookie =>
      if cookie = ctx.internalCommandCookie then
        { ws := ws, reply := none, status := .exitW, mqWritten := [],
          driverCalled := false, notified := [] }
      else
        finishCycle env ws reply0 [] false
  | .getStatus =>
      finishCycle env ws (populateReply ws.frameCount env.timeNs env.isConnected reply0) [] false
  | .start =>
      if ws.state = .standby ∨ ws.state = .draining then
        let r := populateReply ws.frameCount env.timeNs env.isConnected reply0
        let s := if ws.state = .standby then State.idle else State.active
        finishCycle env { ws with state := s } r [] false
      else
        finishCycle env ws (populateReplyWrongState reply0) [] false
  | .burst n =>
      if 0 ≤ n then
        if ws.state = .idle ∨ ws.state = .active ∨ ws.state = .paused ∨
            ws.state = .draining then
          let rr := streamInRead ctx env ws.frameCount n.toNat reply0
          let s1 := if rr.notFatal then ws.state else State.error
          let s2 :=
            if s1 = .idle ∨ s1 = .paused then State.active
            else if s1 = .draining then State.standby
            else s1
          finishCycle env { state := s2, frameCount := rr.frameCount } rr.reply
            rr.mqWritten rr.driverCalled
        else
          finishCycle env ws (populateReplyWrongState reply0) [] false
      else
        finishCycle env ws reply0 [] false
  | .drain mode =>
      if mode = .unspecified then
        if ws.state = .active then
          if env.drainOk then
            finishCycle env { ws with state := .draining }
              (populateReply ws.frameCount env.timeNs env.isConnected reply0) [] false
          else
            finishCycle env { ws with state := .error } reply0 [] false
        else
          finishCycle env ws (populateReplyWrongState reply0) [] false
      else
        finishCycle env ws reply0 [] false
  | .standby =>
      if ws.state = .idle then
        if env.standbyOk then
          finishCycle env { ws with state := .standby }
            (populateReply ws.frameCount env.timeNs env.isConnected reply0) [] false
        else
          finishCycle env { ws with state := .error } reply0 [] false
      else
        finishCycle env ws (populateReplyWrongState reply0) [] false
  | .pause =>
      if ws.state = .active then
        if env.pauseOk then
          finishCycle env { ws with state := .paused }
            (populateReply ws.frameCount env.timeNs env.isConnected reply0) [] false
        else
          finishCycle env { ws with state := .error } reply0 [] false
      else
        finishCycle env ws (populateReplyWrongState reply0) [] false
  | .flush =>
      if ws.state = .paused then
        if env.flushOk then
          finishCycle env { ws with state := .standby }
            (populateReply ws.frameCount env.timeNs env.isConnected reply0) [] false
        else
          finishCycle env { ws with state := .error } reply0 [] false
      else
        finishCycle env ws (populateReplyWrongState reply0) [] false

/-- The transient-state timeout check performed at the start of
`StreamOutWorkerLogic::cycle`, before reading the next command (playback
direction). Returns the resolved state and the notifications issued. -/
def outTransientStep (ctx : StreamContextModel) (env : CycleEnv) (s : State) :
    State × List Notif :=
  if (s = .draining ∨ s = .transferring) ∧ env.transientElapsed then
    if ctx.asyncCallback = false then
      (State.idle, [])
    else if s = .draining then
      (State.idle, [Notif.onDrainReady])
    else
      (State.active, [Notif.onTransferReady])
  else
    (s, [])

/-- Outcome of `StreamOutWorkerLogic::write`: updated reply, updated
cumulative frame count, the negated fatal flag, and whether the driver
transfer was invoked. -/
structure WriteResult where
  reply : Reply
  frameCount : Nat
  notFatal : Bool
  driverCalled : Bool
  deriving Repr

/-- `StreamOutWorkerLogic::write` (playback direction). -/
def streamOutWrite (ctx : StreamContextModel) (env : CycleEnv) (frameCount : Nat)
    (clientSize : Nat) (r : Reply) : WriteResult :=
  let readByteCount := env.availableToRead
  let readSuccess := if readByteCount > 0 then env.dataReadOk else true
  if readSuccess then
    let isConnected := env.isConnected
    let byteCount0 := min (min clientSize readByteCount) ctx.dataBufferSize
    let byteCount :=
      if byteCount0 ≥ ctx.frameSize ∧ ctx.forceTransientBurst then
        byteCount0 - ctx.frameSize
      else byteCount0
    let fatal := isConnected && !env.transfer.ok
    let actualFrameCount :=
      if isConnected then env.transfer.frames else byteCount / ctx.frameSize
    let latency := if isConnected then env.transfer.latencyMs else kLatencyMs
    let actualByteCount := actualFrameCount * ctx.frameSize
    let newFrameCount := frameCount + actualFrameCount
    let r1 := { r with fmqByteCount := r.fmqByteCount + (actualByteCount : Int) }
    let r2 := populateReply newFrameCount env.timeNs isConnected r1
    { reply := { r2 with latencyMs := latency }, frameCount := newFrameCount,
      notFatal := !fatal, driverCalled := isConnected }
  else
    { reply := { r with status := .notEnoughData, latencyMs := kLatencyMs },
      frameCount := frameCount, notFatal := true, driverCalled := false }

/-- The command-dispatch part of `StreamOutWorkerLogic::cycle` (playback
direction), after the transient-state check and a successful command read. -/
def streamOutDispatch (ctx : StreamContextModel) (ws : WorkerState) (env : CycleEnv)
    (command : Command) : CycleResult :=
  let reply0 : Reply := { Reply.empty with status := .badValue }
  match command with
  | .halReservedExit cookie =>
      if cookie = ctx.internalCommandCookie then
        { ws := ws, reply := none, status := .exitW, mqWritten := [],
          driverCalled := false, notified := [] }
      else
        finishCycle env ws reply0 [] false
  | .getStatus =>
      finishCycle env ws (populateReply ws.frameCount env.timeNs env.isConnected reply0) [] false
  | .start =>
      match ws.state with
      | .standby =>
          finishCycle env { ws with state := .idle }
            (populateReply ws.frameCount env.timeNs env.isConnected reply0) [] false
      | .paused =>
          finishCycle env { ws with state := .active }
            (populateReply ws.frameCount env.timeNs env.isConnected reply0) [] false
      | .drainPaused =>
          finishCycle env { ws with state := .draining }
            (populateReply ws.frameCount env.timeNs env.isConnected reply0) [] false
      | .transferPaused =>
          finishCycle env { ws with state := .transferring }
            (populateReply ws.frameCount env.timeNs env.isConnected reply0) [] false
      | _ =>
          finishCycle env ws (populateReplyWrongState reply0) [] false
  | .burst n =>
      if 0 ≤ n then
        if ¬(ws.state = .error ∨ ws.state = .transferring ∨ ws.state = .transferPaused) then
          let wr := streamOutWrite ctx env ws.frameCount n.toNat reply0
          let s1 := if wr.notFatal then ws.state else State.error
          let s2 :=
            if s1 = .standby ∨ s1 = .drainPaused ∨ s1 = .paused then
              if ctx.asyncCallback = false ∨ s1 ≠ .drainPaused then
                State.paused
              else
                State.transferPaused
            else if s1 = .idle ∨ s1 = .draining ∨ s1 = .active then
              if ctx.asyncCallback = false ∨ wr.reply.fmqByteCount = n then
                State.active
              else
                State.transferring
            else s1
          finishCycle env { state := s2, frameCount := wr.frameCount } wr.reply
            [] wr.driverCalled
        else
          finishCycle env ws (populateReplyWrongState reply0) [] false
      else
        finishCycle env ws reply0 [] false
  | .drain mode =>
      if mode = .all ∨ mode = .earlyNotify then
        if ws.state = .active ∨ ws.state = .transferring then
          if env.drainOk then
            let s :=
              if ws.state = .active ∧ ctx.forceSynchronousDrain then State.idle
              else State.draining
            finishCycle env { ws with state := s }
              (populateReply ws.frameCount env.timeNs env.isConnected reply0) [] false
          else
            finishCycle env { ws with state := .error } reply0 [] false
        else if ws.state = .transferPaused then
          finishCycle env { ws with state := .drainPaused }
            (populateReply ws.frameCount env.timeNs env.isConnected reply0) [] false
        else
          finishCycle env ws (populateReplyWrongState reply0) [] false
      else
        finishCycle env ws reply0 [] false
  | .standby =>
      if ws.state = .idle then
        if env.standbyOk then
          finishCycle env { ws with state := .standby }
            (populateReply ws.frameCount env.timeNs env.isConnected reply0) [] false
        else
          finishCycle env { ws with state := .error } reply0 [] false
      else
        finishCycle env ws (populateReplyWrongState reply0) [] false
  | .pause =>
      let nextState : Option State :=
        match ws.state with
        | .active => some .paused
        | .draining => some .drainPaused
        | .transferring => some .transferPaused
        | _ => none
      match nextState with
      | some ns =>
          if env.pauseOk then
            finishCycle env { ws with state := ns }
              (populateReply ws.frameCount env.timeNs env.isConnected reply0) [] false
          else
            finishCycle env { ws with state := .error } reply0 [] false
      | none =>
          finishCycle env ws (populateReplyWrongState reply0) [] false
  | .flush =>
      if ws.state = .paused ∨ ws.state = .drainPaused ∨ ws.state = .transferPaused then
        if env.flushOk then
          finishCycle env { ws with state := .idle }
            (populateReply ws.frameCount env.timeNs env.isConnected reply0) [] false
        else
          finishCycle env { ws with state := .error } reply0 [] false
      else
        finishCycle env ws (populateReplyWrongState reply0) [] false

/-- `StreamOutWorkerLogic::cycle` (playback direction): the transient-state
timeout check runs first, then the next command is dispatched from the
resolved state. -/
def streamOutCycle (ctx : StreamContextModel) (ws : WorkerState) (env : CycleEnv)
    (command : Command) : CycleResult :=
  let p := outTransientStep ctx env ws.state
  let res := streamOutDispatch ctx { ws with state := p.1 } env command
  { res with notified := p.2 ++ res.notified }

/-- Whether a command is the internal exit command with the correct private
cookie (the only command that terminates the worker without a reply). -/
def isValidExitCmd (ctx : StreamContextModel) : Command → Bool
  | .halReservedExit cookie => cookie = ctx.internalCommandCookie
  | _ => false

/-- Run the capture worker over a list of (environment, command) pairs,
stopping when a cycle does not return CONTINUE. Returns the list of
(command, delivered reply) pairs and the list of commands consumed from the
command queue, both in processing order. -/
def runIn (ctx : StreamContextModel) :
    WorkerState → List (CycleEnv × Command) → List (Command × Reply) × List Command
  | _, [] => ([], [])
  | ws, (env, c) :: rest =>
      let res := streamInCycle ctx ws env c
      let here := match res.reply with | some r => [(c, r)] | none => []
      if res.status = .cont then
        let p := runIn ctx res.ws rest
        (here ++ p.1, c :: p.2)
      else
        (here, [c])

/-- Run the playback worker over a list of (environment, command) pairs,
stopping when a cycle does not return CONTINUE. Returns the list of
(command, delivered reply) pairs and the list of commands consumed. -/
def runOut (ctx : StreamContextModel) :
    WorkerState → List (CycleEnv × Command) → List (Command × Reply) × List Command
  | _, [] => ([], [])
  | ws, (env, c) :: rest =>
      let res := streamOutCycle ctx ws env c
      let here := match res.reply with | some r => [(c, r)] | none => []
      if res.status = .cont then
        let p := runOut ctx res.ws rest
        (here ++ p.1, c :: p.2)
      else
        (here, [c])

/-- Worker states reachable by the playback worker from the initial state
(`STANDBY`, zero frames transferred), under arbitrary environments and
commands. -/
inductive OutReachable (ctx : StreamContextModel) : WorkerState → Prop where
  | init : OutReachable ctx ⟨.standby, 0⟩
  | step (ws : WorkerState) (env : CycleEnv) (c : Command) :
      OutReachable ctx ws → OutReachable ctx (streamOutCycle ctx ws env c).ws

/-- The stream transport produced by `Module::createStreamContext`: frame
geometry plus the data queue capacity in bytes (the data MQ is created with
`frameSize * in_bufferSizeFrames` one-byte quanta). -/
structure TransportModel where
  frameSizeBytes : Nat
  dataQueueCapacityBytes : Nat
  deriving DecidableEq, Repr

/-- Model of `StreamContext::isValid` for the created transport: the three
queues are modelled as always healthy (they are freshly constructed
in-process FMQs), so validity reduces to the nonzero frame size check. -/
def transportIsValid (t : TransportModel) : Bool :=
  t.frameSizeBytes ≠ 0

/-- `Module::createStreamContext` (non-MMAP path), parameterized by the
two configuration constants `kMinimumStreamBufferSizeFrames` and
`kMaximumStreamBufferSizeBytes` (declared in a header outside this
translation unit). `frameSize` is `getFrameSizeInBytes(format, channelMask)`
for the port config. Returns the transport, or an error for the
`EX_ILLEGAL_ARGUMENT` / `EX_ILLEGAL_STATE` exits. -/
inductive CreateError where
  | illegalArgument
  | illegalState
  deriving DecidableEq, Repr

def createStreamContext (minFrames maxBytes : Int) (frameSize : Nat)
    (bufferSizeFrames : Int) : Except CreateError TransportModel :=
  if bufferSizeFrames ≤ 0 then
    .error .illegalArgument
  else if bufferSizeFrames < minFrames then
    .error .illegalArgument
  else if frameSize = 0 then
    .error .illegalArgument
  else if (frameSize : Int) > maxBytes / bufferSizeFrames then
    .error .illegalArgument
  else
    let t : TransportModel :=
      { frameSizeBytes := frameSize,
        dataQueueCapacityBytes := frameSize * bufferSizeFrames.toNat }
    if transportIsValid t then .ok t else .error .illegalState

/-- `StreamContext::fillDescriptor`: the exported `bufferSizeFrames` is
`quantumCount * quantumSize / frameSize`, i.e. the data queue byte capacity
divided by the frame size. -/
def fillDescriptorBufferSizeFrames (t : TransportModel) : Nat :=
  t.dataQueueCapacityBytes / t.frameSizeBytes

/-- The (state, command) pairs for which the playback dispatcher makes a
driver call other than `transfer`: `standby` from IDLE, `pause` from
ACTIVE/DRAINING/TRANSFERRING, `flush` from the three paused states, and
`drain` with a playback drain mode from ACTIVE/TRANSFERRING (the
TRANSFER_PAUSED drain transition is synchronous and calls no driver). -/
def outDriverCmdAccepted (s : State) : Command → Prop
  | .standby => s = .idle
  | .pause => s = .active ∨ s = .draining ∨ s = .transferring
  | .flush => s = .paused ∨ s = .drainPaused ∨ s = .transferPaused
  | .drain m => (m = .all ∨ m = .earlyNotify) ∧ (s = .active ∨ s = .transferring)
  | _ => False

/-- Whether the driver call made for the given command returns non-success
in this cycle's environment. -/
def outDriverCallFails (env : CycleEnv) : Command → Prop
  | .standby => env.standbyOk = false
  | .pause => env.pauseOk = false
  | .flush => env.flushOk = false
  | .drain _ => env.drainOk = false
  | _ => False

/-- A concrete stream configuration used to instantiate universally
quantified theorems: 4-byte frames, a 4096-byte data queue, blocking mode
(no async callback), debug flags off. -/
def ctxW : StreamContextModel :=
  { frameSize := 4, dataBufferSize := 4096, internalCommandCookie := 42,
    asyncCallback := false, forceTransientBurst := false, forceSynchronousDrain := false }

/-- The same configuration with an async callback registered. -/
def ctxWCb : StreamContextModel :=
  { ctxW with asyncCallback := true }

/-- A concrete benign per-cycle environment: disconnected, all queue and
driver operations succeed, transient delay not yet elapsed. -/
def envW : CycleEnv :=
  { isConnected := false, timeNs := 100, availableToWrite := 4096,
    availableToRead := 4096, dataWriteOk := true, dataReadOk := true,
    transfer := { ok := true, frames := 0, latencyMs := 10, data := [] },
    standbyOk := true, pauseOk := true, flushOk := true, drainOk := true,
    replyWriteOk := true, transientElapsed := false }

/-! Helper lemmas shared by the claim theorems. -/

theorem streamInRead_notFatal (ctx : StreamContextModel) (env : CycleEnv)
    (fc cs : Nat) (r : Reply) :
    (streamInRead ctx env fc cs r).notFatal = !(env.isConnected && !env.transfer.ok) := by
  unfold streamInRead
  dsimp only
  repeat' split
  all_goals rfl

theorem streamOutWrite_status (ctx : StreamContextModel) (env : CycleEnv)
    (fc cs : Nat) (r : Reply) :
    (streamOutWrite ctx env fc cs r).reply.status = .ok ∨
    (streamOutWrite ctx env fc cs r).reply.status = .notEnoughData := by
  unfold streamOutWrite populateReply
  dsimp only
  repeat' split
  all_goals simp

theorem streamInCycle_cont (ctx : StreamContextModel) (ws : WorkerState) (env : CycleEnv)
    (c : Command) (h1 : isValidExitCmd ctx c = false) (h2 : env.replyWriteOk = true) :
    (streamInCycle ctx ws env c).status = .cont ∧
    (streamInCycle ctx ws env c).reply.isSome = true := by
  cases c
  case halReservedExit k =>
    have hk : ¬(k = ctx.internalCommandCookie) := by simpa [isValidExitCmd] using h1
    simp [streamInCycle, hk, finishCycle, h2]
  all_goals
    simp only [streamInCycle]
  all_goals
    repeat' split
  all_goals
    simp [finishCycle, h2]

theorem streamOutDispatch_cont (ctx : StreamContextModel) (ws : WorkerState) (env : CycleEnv)
    (c : Command) (h1 : isValidExitCmd ctx c = false) (h2 : env.replyWriteOk = true) :
    (streamOutDispatch ctx ws env c).status = .cont ∧
    (streamOutDispatch ctx ws env c).reply.isSome = true := by
  cases c
  case halReservedExit k =>
    have hk : ¬(k = ctx.internalCommandCookie) := by simpa [isValidExitCmd] using h1
    simp [streamOutDispatch, hk, finishCycle, h2]
  all_goals
    simp only [streamOutDispatch]
  all_goals
    repeat' split
  all_goals
    simp [finishCycle, h2]

theorem streamOutCycle_cont (ctx : StreamContextModel) (ws : WorkerState) (env : CycleEnv)
    (c : Command) (h1 : isValidExitCmd ctx c = false) (h2 : env.replyWriteOk = true) :
    (streamOutCycle ctx ws env c).status = .cont ∧
    (streamOutCycle ctx ws env c).reply.isSome = true := by
  have h := streamOutDispatch_cont ctx
    { ws with state := (outTransientStep ctx env ws.state).1 } env c h1 h2
  simpa [streamOutCycle] using h

theorem streamInRead_mqWritten_length (ctx : StreamContextModel) (env : CycleEnv)
    (fc cs : Nat) (r : Reply) :
    (streamInRead ctx env fc cs r).mqWritten.length ≤
      (if env.isConnected then env.transfer.frames
       else min (min cs env.availableToWrite) ctx.dataBufferSize / ctx.frameSize) *
        ctx.frameSize := by
  unfold streamInRead
  dsimp only
  repeat' split
  all_goals simp

theorem streamInRead_disconnected (ctx : StreamContextModel) (env : CycleEnv)
    (fc cs : Nat) (r : Reply) (h : env.isConnected = false) :
    (streamInRead ctx env fc cs r).driverCalled = false ∧
    (streamInRead ctx env fc cs r).buffer =
      List.replicate (min (min cs env.availableToWrite) ctx.dataBufferSize) 0 := by
  unfold streamInRead
  dsimp only
  repeat' split
  all_goals simp_all

theorem streamInRead_success (ctx : StreamContextModel) (env : CycleEnv)
    (fc cs : Nat) (r : Reply)
    (h : (if env.isConnected then env.transfer.frames
          else min (min cs env.availableToWrite) ctx.dataBufferSize / ctx.frameSize) *
            ctx.frameSize > 0 → env.dataWriteOk = true) :
    (streamInRead ctx env fc cs r).reply.fmqByteCount =
      r.fmqByteCount +
        ((if env.isConnected then env.transfer.frames
          else min (min cs env.availableToWrite) ctx.dataBufferSize / ctx.frameSize) *
            ctx.frameSize : Nat) ∧
    (streamInRead ctx env fc cs r).frameCount =
      fc + (if env.isConnected then env.transfer.frames
            else min (min cs env.availableToWrite) ctx.dataBufferSize / ctx.frameSize) := by
  have hsucc : (if (if env.isConnected then env.transfer.frames
      else min (min cs env.availableToWrite) ctx.dataBufferSize / ctx.frameSize) *
        ctx.frameSize > 0 then env.dataWriteOk else true) = true := by
    by_cases hpos : (if env.isConnected then env.transfer.frames
        else min (min cs env.availableToWrite) ctx.dataBufferSize / ctx.frameSize) *
          ctx.frameSize > 0
    · rw [if_pos hpos]
      exact h hpos
    · rw [if_neg hpos]
  unfold streamInRead
  dsimp only
  rw [hsucc]
  simp [populateReply]
  split <;> simp

theorem streamInRead_write_failure (ctx : StreamContextModel) (env : CycleEnv)
    (fc cs : Nat) (r : Reply)
    (habc : (if env.isConnected then env.transfer.frames
             else min (min cs env.availableToWrite) ctx.dataBufferSize / ctx.frameSize) *
               ctx.frameSize > 0)
    (h : env.dataWriteOk = false) :
    (streamInRead ctx env fc cs r).reply.status = .notEnoughData := by
  have hsucc : (if (if env.isConnected then env.transfer.frames
      else min (min cs env.availableToWrite) ctx.dataBufferSize / ctx.frameSize) *
        ctx.frameSize > 0 then env.dataWriteOk else true) = false := by
    rw [if_pos habc]
    exact h
  unfold streamInRead
  dsimp only
  rw [hsucc]
  simp

theorem finishCycle_no_transfer (env : CycleEnv) (ws : WorkerState) (r : Reply)
    (m : List Int) (d : Bool)
    (h1 : ws.state ≠ .transferring) (h2 : ws.state ≠ .transferPaused) :
    (finishCycle env ws r m d).ws.state ≠ .transferring ∧
    (finishCycle env ws r m d).ws.state ≠ .transferPaused := by
  unfold finishCycle
  split <;> simp_all

theorem outTransientStep_no_transfer (ctx : StreamContextModel) (env : CycleEnv)
    (s : State) (h1 : s ≠ .transferring) (h2 : s ≠ .transferPaused) :
    (outTransientStep ctx env s).1 ≠ .transferring ∧
    (outTransientStep ctx env s).1 ≠ .transferPaused := by
  unfold outTransientStep
  repeat' split
  all_goals simp_all

set_option maxHeartbeats 1000000 in
theorem streamOutDispatch_no_transfer (ctx : StreamContextModel)
    (h : ctx.asyncCallback = false) (ws : WorkerState) (env : CycleEnv) (c : Command)
    (h1 : ws.state ≠ .transferring) (h2 : ws.state ≠ .transferPaused) :
    (streamOutDispatch ctx ws env c).ws.state ≠ .transferring ∧
    (streamOutDispatch ctx ws env c).ws.state ≠ .transferPaused := by
  obtain ⟨s, fc⟩ := ws
  replace h1 : s ≠ State.transferring := h1
  replace h2 : s ≠ State.transferPaused := h2
  cases c
  all_goals cases s
  all_goals try exact absurd rfl h1
  all_goals try exact absurd rfl h2
  all_goals simp only [streamOutDispatch]
  all_goals (repeat' split)
  all_goals try exact ⟨h1, h2⟩
  all_goals refine finishCycle_no_transfer _ _ _ _ _ ?_ ?_ <;> dsimp only <;>
    (repeat' split) <;> simp_all

theorem streamOutCycle_no_transfer (ctx : StreamContextModel)
    (h : ctx.asyncCallback = false) (ws : WorkerState) (env : CycleEnv) (c : Command)
    (h1 : ws.state ≠ .transferring) (h2 : ws.state ≠ .transferPaused) :
    (streamOutCycle ctx ws env c).ws.state ≠ .transferring ∧
    (streamOutCycle ctx ws env c).ws.state ≠ .transferPaused := by
  have hts := outTransientStep_no_transfer ctx env ws.state h1 h2
  have hd := streamOutDispatch_no_transfer ctx h
    { ws with state := (outTransientStep ctx env ws.state).1 } env c hts.1 hts.2
  simpa [streamOutCycle] using hd

/-! Claim theorems. -/

/-- Claim C1: for a playback stream dispatching a burst command with a
non-negative byte count, the command is rejected — the delivered reply
carries INVALID_OPERATION and the FSM state is unchanged — if and only if
the state at dispatch time is ERROR, TRANSFERRING or TRANSFER_PAUSED. -/
theorem playback_burst_rejection_iff (ctx : StreamContextModel) (env : CycleEnv)
    (s : State) (fc : Nat) (n : Int) (hn : 0 ≤ n) (hw : env.replyWriteOk = true) :
    ((streamOutDispatch ctx ⟨s, fc⟩ env (.burst n)).reply.map Reply.status =
        some RetStatus.invalidOperation ∧
      (streamOutDispatch ctx ⟨s, fc⟩ env (.burst n)).ws.state = s) ↔
    (s = .error ∨ s = .transferring ∨ s = .transferPaused) := by
  cases s <;>
    simp only [streamOutDispatch] <;>
    simp [finishCycle, hw, hn, populateReplyWrongState] <;>
    rcases streamOutWrite_status ctx env fc n.toNat
      { Reply.empty with status := .badValue } with h | h <;>
    simp [h]

theorem playback_burst_rejection_iff_witness :
    (0 : Int) ≤ 0 ∧ envW.replyWriteOk = true ∧
    (((streamOutDispatch ctxW ⟨State.error, 0⟩ envW (.burst 0)).reply.map Reply.status =
        some RetStatus.invalidOperation ∧
      (streamOutDispatch ctxW ⟨State.error, 0⟩ envW (.burst 0)).ws.state = State.error) ↔
      (State.error = .error ∨ State.error = .transferring ∨
        State.error = .transferPaused)) :=
  ⟨le_refl 0, rfl, playback_burst_rejection_iff ctxW envW State.error 0 0 (le_refl 0) rfl⟩

/-- Claim C2, counterexample to the original statement: for the playback
standby command issued in IDLE with a failing driver, the reply that is
written reports the new ERROR state (together with the untouched BAD_VALUE
status), contradicting the claim that the reply does not report ERROR. -/
theorem driver_failure_reply_reports_error :
    (streamOutDispatch ctxW ⟨State.idle, 0⟩ { envW with standbyOk := false }
        Command.standby).reply =
      some { status := .badValue, state := .error, observableFrames := 0,
             observableTimeNs := 0, fmqByteCount := 0, latencyMs := 0 } := by
  rfl

/-- Claim C2 (amended): for every playback command whose accepted transition
makes a driver call (standby, pause, flush, drain), a non-success driver
return forces the FSM state to ERROR, and a reply is still written; since no
success status was computed, the reply carries the initial BAD_VALUE status
and reports the new ERROR state. -/
theorem driver_failure_forces_error_reply (ctx : StreamContextModel) (ws : WorkerState)
    (env : CycleEnv) (c : Command) (hw : env.replyWriteOk = true)
    (ha : outDriverCmdAccepted ws.state c) (hf : outDriverCallFails env c) :
    (streamOutDispatch ctx ws env c).ws.state = .error ∧
    (streamOutDispatch ctx ws env c).reply =
      some { Reply.empty with status := .badValue, state := .error } ∧
    (streamOutDispatch ctx ws env c).status = .cont := by
  cases c with
  | halReservedExit k => exact absurd ha (by simp [outDriverCmdAccepted])
  | getStatus => exact absurd ha (by simp [outDriverCmdAccepted])
  | start => exact absurd ha (by simp [outDriverCmdAccepted])
  | burst n => exact absurd ha (by simp [outDriverCmdAccepted])
  | drain m =>
      obtain ⟨hm, hs⟩ := ha
      have hdf : env.drainOk = false := hf
      rcases hs with hs | hs <;>
        simp [streamOutDispatch, finishCycle, hw, hs, hm, hdf]
  | standby =>
      have hs : ws.state = .idle := ha
      have hdf : env.standbyOk = false := hf
      simp [streamOutDispatch, finishCycle, hw, hs, hdf]
  | pause =>
      have hdf : env.pauseOk = false := hf
      rcases ha with hs | hs | hs <;>
        simp [streamOutDispatch, finishCycle, hw, hs, hdf]
  | flush =>
      have hdf : env.flushOk = false := hf
      rcases ha with hs | hs | hs <;>
        simp [streamOutDispatch, finishCycle, hw, hs, hdf]

theorem driver_failure_forces_error_reply_witness :
    ({ envW with standbyOk := false } : CycleEnv).replyWriteOk = true ∧
    outDriverCmdAccepted (⟨State.idle, 0⟩ : WorkerState).state Command.standby ∧
    outDriverCallFails { envW with standbyOk := false } Command.standby ∧
    (streamOutDispatch ctxW ⟨State.idle, 0⟩ { envW with standbyOk := false }
        Command.standby).ws.state = .error :=
  ⟨rfl, rfl, rfl,
    (driver_failure_forces_error_reply ctxW ⟨State.idle, 0⟩
      { envW with standbyOk := false } Command.standby rfl rfl rfl).1⟩

/-- Claim C3, counterexample to the original statement: the internal exit
command with the correct private cookie is consumed from the command queue
but produces no reply, so not every consumed command yields a reply. -/
theorem exit_command_consumed_without_reply :
    (runIn ctxW ⟨State.standby, 0⟩ [(envW, Command.halReservedExit 42)]).2.length = 1 ∧
    (runIn ctxW ⟨State.standby, 0⟩ [(envW, Command.halReservedExit 42)]).1.length = 0 := by
  constructor <;> rfl

/-- Claim C3 (amended): for both stream directions, as long as no consumed
command is the internal exit command with the correct cookie and the reply
queue accepts every write, the worker produces exactly one reply per
consumed command, in the order the commands are read. -/
theorem one_reply_per_command_in_order (ctx : StreamContextModel) (ws : WorkerState)
    (l : List (CycleEnv × Command))
    (hx : ∀ p ∈ l, isValidExitCmd ctx p.2 = false)
    (hw : ∀ p ∈ l, p.1.replyWriteOk = true) :
    ((runIn ctx ws l).1.map Prod.fst = l.map Prod.snd ∧
      (runIn ctx ws l).2 = l.map Prod.snd) ∧
    ((runOut ctx ws l).1.map Prod.fst = l.map Prod.snd ∧
      (runOut ctx ws l).2 = l.map Prod.snd) := by
  revert hx hw
  induction l generalizing ws with
  | nil =>
      intro hx hw
      simp [runIn, runOut]
  | cons p rest ih =>
      intro hx hw
      obtain ⟨env, c⟩ := p
      have h1 := hx (env, c) (List.mem_cons_self _ _)
      have h2 := hw (env, c) (List.mem_cons_self _ _)
      have hin := streamInCycle_cont ctx ws env c h1 h2
      have hout := streamOutCycle_cont ctx ws env c h1 h2
      obtain ⟨r1, hr1⟩ := Option.isSome_iff_exists.mp hin.2
      obtain ⟨r2, hr2⟩ := Option.isSome_iff_exists.mp hout.2
      have ihx : ∀ q ∈ rest, isValidExitCmd ctx q.2 = false :=
        fun q hq => hx q (List.mem_cons_of_mem _ hq)
      have ihw : ∀ q ∈ rest, q.1.replyWriteOk = true :=
        fun q hq => hw q (List.mem_cons_of_mem _ hq)
      have ih1 := ih (streamInCycle ctx ws env c).ws ihx ihw
      have ih2 := ih (streamOutCycle ctx ws env c).ws ihx ihw
      constructor
      · simp [runIn, hin.1, hr1, ih1.1.1, ih1.1.2]
      · simp [runOut, hout.1, hr2, ih2.2.1, ih2.2.2]

theorem one_reply_per_command_in_order_witness :
    ((runIn ctxW ⟨State.standby, 0⟩ [(envW, Command.getStatus)]).1.map Prod.fst =
        [(envW, Command.getStatus)].map Prod.snd ∧
      (runIn ctxW ⟨State.standby, 0⟩ [(envW, Command.getStatus)]).2 =
        [(envW, Command.getStatus)].map Prod.snd) ∧
    ((runOut ctxW ⟨State.standby, 0⟩ [(envW, Command.getStatus)]).1.map Prod.fst =
        [(envW, Command.getStatus)].map Prod.snd ∧
      (runOut ctxW ⟨State.standby, 0⟩ [(envW, Command.getStatus)]).2 =
        [(envW, Command.getStatus)].map Prod.snd) :=
  one_reply_per_command_in_order ctxW ⟨State.standby, 0⟩ [(envW, Command.getStatus)]
    (by
      intro p hp
      rw [List.mem_singleton] at hp
      subst hp
      rfl)
    (by
      intro p hp
      rw [List.mem_singleton] at hp
      subst hp
      rfl)

/-- Claim C4: for a playback stream in DRAINING or TRANSFERRING, once the
transient-state delay has elapsed, the cycle resolves the state without any
client command, before the next command is dispatched: to IDLE when no async
callback is registered, otherwise DRAINING resolves to IDLE with an
onDrainReady notification and TRANSFERRING to ACTIVE with an
onTransferReady notification. -/
theorem transient_auto_resolution (ctx : StreamContextModel) (env : CycleEnv)
    (s : State) (fc : Nat) (c : Command)
    (he : env.transientElapsed = true) (hs : s = .draining ∨ s = .transferring) :
    (ctx.asyncCallback = false → outTransientStep ctx env s = (State.idle, [])) ∧
    (ctx.asyncCallback = true → s = .draining →
      outTransientStep ctx env s = (State.idle, [Notif.onDrainReady])) ∧
    (ctx.asyncCallback = true → s = .transferring →
      outTransientStep ctx env s = (State.active, [Notif.onTransferReady])) ∧
    streamOutCycle ctx ⟨s, fc⟩ env c =
      { streamOutDispatch ctx ⟨(outTransientStep ctx env s).1, fc⟩ env c with
        notified := (outTransientStep ctx env s).2 ++
          (streamOutDispatch ctx ⟨(outTransientStep ctx env s).1, fc⟩ env c).notified } := by
  refine ⟨?_, ?_, ?_, rfl⟩
  · intro h
    rcases hs with h1 | h1 <;> subst h1 <;> simp [outTransientStep, he, h]
  · intro h h1
    subst h1
    simp [outTransientStep, he, h]
  · intro h h1
    subst h1
    simp [outTransientStep, he, h]

theorem transient_auto_resolution_witness :
    ({ envW with transientElapsed := true } : CycleEnv).transientElapsed = true ∧
    outTransientStep ctxW { envW with transientElapsed := true } State.draining =
      (State.idle, []) :=
  ⟨rfl, (transient_auto_resolution ctxW { envW with transientElapsed := true }
    State.draining 0 Command.getStatus rfl (Or.inl rfl)).1 rfl⟩

/-- Claim C5, counterexample to the original statement: a burst issued in
DRAINING whose driver transfer fails fatally leaves the capture stream in
ERROR, not STANDBY. -/
theorem capture_burst_draining_fatal :
    (streamInCycle ctxW ⟨State.draining, 0⟩
        { envW with isConnected := true,
                    transfer := { ok := false, frames := 0, latencyMs := 10, data := [] } }
        (Command.burst 8)).ws.state = State.error ∧
    (streamInCycle ctxW ⟨State.draining, 0⟩
        { envW with isConnected := true,
                    transfer := { ok := false, frames := 0, latencyMs := 10, data := [] } }
        (Command.burst 8)).ws.state ≠ State.standby := by
  constructor <;> decide

/-- Claim C5 (amended): for a capture stream, drain with mode UNSPECIFIED
issued in ACTIVE moves the state to DRAINING when the driver drain call
succeeds, and a burst with non-negative byte count issued in DRAINING moves
the state to STANDBY provided the driver transfer does not fail fatally
(a fatal transfer forces ERROR instead) and the reply write succeeds. -/
theorem capture_drain_then_burst (ctx : StreamContextModel) (env1 env2 : CycleEnv)
    (fc1 fc2 : Nat) (n : Int)
    (hd : env1.drainOk = true) (hw1 : env1.replyWriteOk = true)
    (hn : 0 ≤ n) (hok : env2.isConnected = false ∨ env2.transfer.ok = true)
    (hw2 : env2.replyWriteOk = true) :
    (streamInCycle ctx ⟨.active, fc1⟩ env1 (.drain .unspecified)).ws.state = .draining ∧
    (streamInCycle ctx ⟨.draining, fc2⟩ env2 (.burst n)).ws.state = .standby := by
  constructor
  · simp [streamInCycle, finishCycle, hd, hw1]
  · rcases hok with hok | hok <;>
      simp [streamInCycle, finishCycle, hn, hw2, streamInRead_notFatal, hok]

theorem capture_drain_then_burst_witness :
    envW.drainOk = true ∧ envW.replyWriteOk = true ∧ (0 : Int) ≤ 8 ∧
    envW.isConnected = false ∧
    (streamInCycle ctxW ⟨State.active, 0⟩ envW (.drain .unspecified)).ws.state =
      State.draining ∧
    (streamInCycle ctxW ⟨State.draining, 0⟩ envW (.burst 8)).ws.state = State.standby :=
  ⟨rfl, rfl, by decide, rfl,
    (capture_drain_then_burst ctxW envW envW 0 0 8 rfl rfl (by decide)
      (Or.inl rfl) rfl).1,
    (capture_drain_then_burst ctxW envW envW 0 0 8 rfl rfl (by decide)
      (Or.inl rfl) rfl).2⟩

/-- Claim C6: for a capture burst with byte budget `clientSize`, writing
`byteCount = min(clientSize, data-queue writable space, scratch-buffer
size)` and for a driver honoring its contract (returning at most the
requested frame count): the number of bytes written into the data queue is
at most `byteCount`; when disconnected the driver is not called and the
scratch buffer is filled with zeros; on a successful (or empty) queue write
the transferred bytes and frames are accumulated into the reply's
fmqByteCount and the cumulative frame counter; and a failed queue write
sets reply status NOT_ENOUGH_DATA while fatality keeps depending only on
the driver transfer result, not on the queue write. -/
theorem capture_burst_data_path (ctx : StreamContextModel) (env : CycleEnv)
    (fc clientSize : Nat) (r0 : Reply) (byteCount afc : Nat)
    (hbc : byteCount = min (min clientSize env.availableToWrite) ctx.dataBufferSize)
    (hafc : afc = if env.isConnected then env.transfer.frames
                  else byteCount / ctx.frameSize)
    (hdrv : env.isConnected = true → env.transfer.frames ≤ byteCount / ctx.frameSize) :
    ((streamInRead ctx env fc clientSize r0).mqWritten.length ≤ byteCount) ∧
    (env.isConnected = false →
      (streamInRead ctx env fc clientSize r0).driverCalled = false ∧
      (streamInRead ctx env fc clientSize r0).buffer = List.replicate byteCount 0) ∧
    ((afc * ctx.frameSize > 0 → env.dataWriteOk = true) →
      (streamInRead ctx env fc clientSize r0).reply.fmqByteCount =
        r0.fmqByteCount + (afc * ctx.frameSize : Nat) ∧
      (streamInRead ctx env fc clientSize r0).frameCount = fc + afc) ∧
    (afc * ctx.frameSize > 0 → env.dataWriteOk = false →
      (streamInRead ctx env fc clientSize r0).reply.status = .notEnoughData ∧
      (streamInRead ctx env fc clientSize r0).notFatal =
        !(env.isConnected && !env.transfer.ok)) := by
  subst hbc
  subst hafc
  have habc : (if env.isConnected then env.transfer.frames
      else min (min clientSize env.availableToWrite) ctx.dataBufferSize / ctx.frameSize) *
        ctx.frameSize ≤
      min (min clientSize env.availableToWrite) ctx.dataBufferSize := by
    cases hc : env.isConnected with
    | true =>
        rw [if_pos rfl]
        calc env.transfer.frames * ctx.frameSize
            ≤ (min (min clientSize env.availableToWrite) ctx.dataBufferSize / ctx.frameSize) *
                ctx.frameSize := Nat.mul_le_mul_right _ (hdrv hc)
          _ ≤ min (min clientSize env.availableToWrite) ctx.dataBufferSize :=
              Nat.div_mul_le_self _ _
    | false =>
        rw [if_neg (by simp)]
        exact Nat.div_mul_le_self _ _
  refine ⟨le_trans (streamInRead_mqWritten_length ctx env fc clientSize r0) habc,
    fun h => streamInRead_disconnected ctx env fc clientSize r0 h,
    fun h => streamInRead_success ctx env fc clientSize r0 h,
    fun h1 h2 => ⟨streamInRead_write_failure ctx env fc clientSize r0 h1 h2,
      streamInRead_notFatal ctx env fc clientSize r0⟩⟩

theorem capture_burst_data_path_witness :
    (8 : Nat) = min (min 8 envW.availableToWrite) ctxW.dataBufferSize ∧
    (2 : Nat) = (if envW.isConnected then envW.transfer.frames
                 else 8 / ctxW.frameSize) ∧
    (streamInRead ctxW envW 0 8 Reply.empty).mqWritten.length ≤ 8 :=
  ⟨by decide, by decide,
    (capture_burst_data_path ctxW envW 0 8 Reply.empty 8 2 (by decide) (by decide)
      (by decide)).1⟩

/-- Claim C7: after a successful transport configuration, the frame size in
bytes multiplied by the bufferSizeFrames value exported in the stream
descriptor equals the data queue capacity in bytes. -/
theorem frame_geometry_round_trip (minFrames maxBytes : Int) (frameSize : Nat)
    (bufferSizeFrames : Int) (t : TransportModel)
    (h : createStreamContext minFrames maxBytes frameSize bufferSizeFrames = .ok t) :
    t.frameSizeBytes * fillDescriptorBufferSizeFrames t = t.dataQueueCapacityBytes := by
  simp only [createStreamContext, transportIsValid] at h
  split_ifs at h with h1 h2 h3 h4 h5
  · simp only [Except.ok.injEq] at h
    subst h
    have hfs : 0 < frameSize := Nat.pos_of_ne_zero h3
    simp [fillDescriptorBufferSizeFrames, Nat.mul_div_cancel_left _ hfs]

theorem frame_geometry_round_trip_witness :
    createStreamContext 16 1048576 4 1024 =
      .ok { frameSizeBytes := 4, dataQueueCapacityBytes := 4096 } ∧
    ({ frameSizeBytes := 4, dataQueueCapacityBytes := 4096 } : TransportModel).frameSizeBytes *
        fillDescriptorBufferSizeFrames
          { frameSizeBytes := 4, dataQueueCapacityBytes := 4096 } =
      ({ frameSizeBytes := 4,
         dataQueueCapacityBytes := 4096 } : TransportModel).dataQueueCapacityBytes :=
  ⟨by rfl, frame_geometry_round_trip 16 1048576 4 1024
    { frameSizeBytes := 4, dataQueueCapacityBytes := 4096 } (by rfl)⟩

/-- Claim C8: transport configuration fails with an invalid-argument error
exactly when the requested buffer size in frames is non-positive, below the
minimum frame threshold, or its product with the frame size exceeds the
maximum byte ceiling; otherwise, for a port config with nonzero frame size,
it succeeds and the resulting transport is valid. -/
theorem create_stream_context_validation (minFrames maxBytes : Int) (frameSize : Nat)
    (bufferSizeFrames : Int) (hmax : 0 ≤ maxBytes) (hfs : frameSize ≠ 0) :
    (createStreamContext minFrames maxBytes frameSize bufferSizeFrames =
        .error .illegalArgument ↔
      bufferSizeFrames ≤ 0 ∨ bufferSizeFrames < minFrames ∨
        maxBytes < (frameSize : Int) * bufferSizeFrames) ∧
    (¬(bufferSizeFrames ≤ 0 ∨ bufferSizeFrames < minFrames ∨
        maxBytes < (frameSize : Int) * bufferSizeFrames) →
      createStreamContext minFrames maxBytes frameSize bufferSizeFrames =
        .ok { frameSizeBytes := frameSize,
              dataQueueCapacityBytes := frameSize * bufferSizeFrames.toNat } ∧
      transportIsValid { frameSizeBytes := frameSize,
                         dataQueueCapacityBytes := frameSize * bufferSizeFrames.toNat } =
        true) := by
  unfold createStreamContext transportIsValid
  split_ifs with h1 h2 h3
  · simp [h1]
  · simp [h2]
  · have hb : 0 < bufferSizeFrames := by omega
    have hlt : maxBytes < (frameSize : Int) * bufferSizeFrames := by
      have := (Int.ediv_lt_iff_lt_mul hb).mp h3
      omega
    simp [hlt]
  · have hb : 0 < bufferSizeFrames := by omega
    have hle : (frameSize : Int) * bufferSizeFrames ≤ maxBytes := by
      have h3le : (frameSize : Int) ≤ maxBytes / bufferSizeFrames := by omega
      have := (Int.le_ediv_iff_mul_le hb).mp h3le
      omega
    constructor
    · simp [hfs, h1, h2]
      omega
    · intro _
      simp [hfs]

theorem create_stream_context_validation_witness :
    (0 : Int) ≤ 1048576 ∧ (4 : Nat) ≠ 0 ∧
    ¬((1024 : Int) ≤ 0 ∨ (1024 : Int) < 16 ∨ (1048576 : Int) < (4 : Int) * 1024) ∧
    createStreamContext 16 1048576 4 1024 =
      .ok { frameSizeBytes := 4, dataQueueCapacityBytes := 4096 } :=
  ⟨by decide, by decide, by decide,
    ((create_stream_context_validation 16 1048576 4 1024 (by decide) (by decide)).2
      (by decide)).1⟩

/-- Claim C9: for both stream directions, a malformed command — an exit
command whose cookie differs from the internal cookie, or a burst command
with a negative byte count — is rejected: the delivered reply carries
BAD_VALUE, the FSM state is unchanged, and the worker continues. -/
theorem malformed_command_rejected (ctx : StreamContextModel) (ws : WorkerState)
    (env : CycleEnv) (c : Command) (hw : env.replyWriteOk = true)
    (hm : (∃ k, c = .halReservedExit k ∧ k ≠ ctx.internalCommandCookie) ∨
          (∃ n, c = .burst n ∧ n < 0)) :
    ((streamInCycle ctx ws env c).reply =
        some { Reply.empty with status := .badValue, state := ws.state } ∧
      (streamInCycle ctx ws env c).ws = ws ∧
      (streamInCycle ctx ws env c).status = .cont) ∧
    ((streamOutDispatch ctx ws env c).reply =
        some { Reply.empty with status := .badValue, state := ws.state } ∧
      (streamOutDispatch ctx ws env c).ws = ws ∧
      (streamOutDispatch ctx ws env c).status = .cont) := by
  rcases hm with ⟨k, hc, hk⟩ | ⟨n, hc, hn⟩ <;> subst hc
  · simp [streamInCycle, streamOutDispatch, finishCycle, hw, hk]
  · have hn2 : ¬(0 ≤ n) := by omega
    simp [streamInCycle, streamOutDispatch, finishCycle, hw, hn2]

theorem malformed_command_rejected_witness :
    envW.replyWriteOk = true ∧
    (streamInCycle ctxW ⟨State.standby, 0⟩ envW (.burst (-1))).reply =
      some { Reply.empty with status := .badValue, state := State.standby } :=
  ⟨rfl, (malformed_command_rejected ctxW ⟨State.standby, 0⟩ envW (.burst (-1)) rfl
    (Or.inr ⟨-1, rfl, by decide⟩)).1.1⟩

/-- Claim C10: for a playback stream with no async callback registered, the
states TRANSFERRING and TRANSFER_PAUSED are unreachable from the initial
STANDBY state, so whenever the transient resolution branch applies (state
DRAINING or TRANSFERRING), the state is in fact DRAINING — the blocking-mode
branch that unconditionally sets IDLE only ever fires in DRAINING. -/
theorem blocking_mode_transfer_states_unreachable (ctx : StreamContextModel)
    (h : ctx.asyncCallback = false) (ws : WorkerState) (hr : OutReachable ctx ws) :
    (ws.state ≠ .transferring ∧ ws.state ≠ .transferPaused) ∧
    ((ws.state = .draining ∨ ws.state = .transferring) → ws.state = .draining) := by
  induction hr with
  | init => simp
  | step ws0 env c hprev ih =>
      have hstep := streamOutCycle_no_transfer ctx h ws0 env c ih.1.1 ih.1.2
      exact ⟨hstep, fun hd => hd.resolve_right hstep.1⟩

theorem blocking_mode_transfer_states_unreachable_witness :
    ctxW.asyncCallback = false ∧
    ((⟨State.standby, 0⟩ : WorkerState).state ≠ State.transferring ∧
      (⟨State.standby, 0⟩ : WorkerState).state ≠ State.transferPaused) :=
  ⟨rfl, (blocking_mode_transfer_states_unreachable ctxW rfl ⟨State.standby, 0⟩
    OutReachable.init).1⟩

end AudioCore
